import Mathlib

/-!
# Verification of the beauty_lakehouse generator/validator pair

Shallow embedding of `src/generate_data.py` (namespace `GenerateData`) and
`scripts/validate_dataset.py` (namespace `ValidateDataset`).

Modelling conventions:
* Monetary values and real-valued samples are rationals (`ℚ`); Python
  `round(x, 2)` / `np.round(x, 2)` (round half to even on the scaled value)
  is `round2`.
* Dates are day numbers (`ℤ`); `datetime.today()` becomes an explicit
  `endDate` parameter, and `timedelta(days = k)` is integer addition.
* The NumPy global PRNG is abstracted as an oracle (`RandomSource`): each
  field yields, per entity index, the value delivered by the corresponding
  `np.random` call.  Integer draws are reduced modulo the size of the choice
  set at the use site (so a draw can produce any element of the support);
  continuous draws are constrained to the support of the distribution the
  source samples from (lognormal is positive, `np.random.uniform(0.40, 0.70)`
  lies in `[0.40, 0.70)`).  Theorems quantify over all oracles, hence hold
  for every realisable draw sequence.
* Python exceptions become `Except String`; the generator's per-order
  `try/except` loop is `runBatch`, which records one error-log entry per
  failed order id and continues.
-/

/-- Row of `customers.csv` (columns from generate_data.py lines 142-152). -/
structure CustomerRow where
  customer_id : ℕ
  first_name : String
  last_name : String
  email : String
  signup_date : ℤ
  city : String
  age : ℤ
deriving DecidableEq

/-- Row of `products.csv` (columns from generate_data.py lines 202-212). -/
structure ProductRow where
  product_id : ℕ
  product_name : String
  product_type : String
  category : String
  price : ℚ
  cost : ℚ
  available_stock : ℕ
deriving DecidableEq

/-- Row of `orders.csv` (columns from generate_data.py lines 233-240). -/
structure OrderRow where
  order_id : ℕ
  customer_id : ℕ
  order_date : ℤ
  total_amount : ℚ
  payment_type : String
  status : String
deriving DecidableEq

/-- Row of `order_items.csv` (columns from generate_data.py lines 241-248). -/
structure OrderItemRow where
  order_item_id : ℕ
  order_id : ℕ
  product_id : ℕ
  quantity : ℕ
  unit_price : ℚ
  line_total : ℚ
deriving DecidableEq

/-- Round half to even: the rounding used by Python `round` and `np.round`
on the scaled value. -/
def roundHalfEven (x : ℚ) : ℤ :=
  let f := ⌊x⌋
  let r := x - f
  if r < 1/2 then f
  else if 1/2 < r then f + 1
  else if f % 2 = 0 then f else f + 1

/-- `round(x, 2)`: round half to even at two decimal places. -/
def round2 (x : ℚ) : ℚ := (roundHalfEven (x * 100) : ℚ) / 100

namespace GenerateData

/-! Configuration (generate_data.py lines 35-43). -/

def SEED : ℕ := 42

def N_CUSTOMERS : ℕ := 10000

def N_PRODUCTS : ℕ := 2000

def N_ORDERS : ℕ := 100000

def MIN_ITEMS_PER_ORDER : ℕ := 1

def MAX_ITEMS_PER_ORDER : ℕ := 6

/-- `START_DATE = END_DATE - timedelta(days=3*365)` (line 55), as an offset
from the run-time `endDate` parameter that models `datetime.today()`. -/
def startDateOf (endDate : ℤ) : ℤ := endDate - 3 * 365

/-- Fixed city list (lines 57-78). -/
def SWEDISH_CITIES : List String :=
  ["Stockholm", "Göteborg", "Malmö", "Uppsala", "Västerås", "Örebro",
   "Linköping", "Helsingborg", "Jönköping", "Norrköping", "Lund", "Umeå",
   "Gävle", "Borås", "Södertälje", "Eskilstuna", "Halmstad", "Växjö",
   "Karlstad", "Täby"]

/-- Authoritative mapping product_type -> category (lines 81-117),
as an association list in source order. -/
def PRODUCT_TYPE_TO_CATEGORY : List (String × String) :=
  [("Shampoo", "Shampoo"),
   ("Conditioner", "Conditioner"),
   ("Hair Mask", "Hair Mask"),
   ("Leave-in Treatment", "Hair Treatment"),
   ("Scalp Serum", "Hair Treatment"),
   ("Dry Shampoo", "Shampoo"),
   ("Hair Oil", "Hair Treatment"),
   ("Hair Serum", "Hair Treatment"),
   ("Body Lotion", "Body Care"),
   ("Body Wash", "Body Care"),
   ("Body Scrub", "Body Care"),
   ("Hand Cream", "Hand Care"),
   ("Face Cleanser", "Face Care"),
   ("Face Cream", "Face Care"),
   ("Face Serum", "Face Care"),
   ("Toner", "Face Care"),
   ("BB Cream", "Face Care"),
   ("Foundation", "Makeup"),
   ("Blush", "Makeup"),
   ("Mascara", "Makeup"),
   ("Lip Balm", "Makeup"),
   ("Lipstick", "Makeup"),
   ("Nail Polish", "Nail Care"),
   ("Base Coat", "Nail Care"),
   ("Top Coat", "Nail Care"),
   ("Cuticle Oil", "Nail Care"),
   ("Nail Strengthener", "Nail Care"),
   ("Nail File", "Nail Tools"),
   ("Nail Clippers", "Nail Tools"),
   ("Nail Brush", "Nail Tools")]

/-- `PRODUCT_TYPES = list(PRODUCT_TYPE_TO_CATEGORY.keys())` (line 119). -/
def PRODUCT_TYPES : List String := PRODUCT_TYPE_TO_CATEGORY.map Prod.fst

def PAYMENT_TYPES : List String := ["card", "invoice", "paypal", "swish"]

def ORDER_STATUSES : List String := ["completed", "cancelled", "returned"]

/-- Product-name adjectives (lines 170-189). -/
def adjectives : List String :=
  ["Hydra", "Silk", "Pure", "Gentle", "Revive", "Nourish", "Balance", "Glow",
   "Radiant", "Calming", "Repair", "Botanical", "Fresh", "Velvet", "Luxe",
   "Bright", "Soothing", "Clarifying"]

def sizes : List String :=
  ["30ml", "50ml", "75ml", "100ml", "150ml", "200ml", "250ml"]

/-- Oracle abstraction of the seeded NumPy PRNG and the seeded Faker
instance.  Each field delivers, per entity index, the value of the
corresponding random call; continuous draws carry the support of their
distribution as a subtype. -/
structure RandomSource where
  /-- Faker `fake.name()` per customer index: (first, last), lines 136-138. -/
  nameDraws : ℕ → String × String
  /-- `np.random.randint` draw behind `random_date_between` per customer, line 126. -/
  customerDateDraws : ℕ → ℕ
  /-- `np.random.normal(35, 10)` sample per customer, line 140. -/
  ageDraws : ℕ → ℚ
  /-- `np.random.choice(SWEDISH_CITIES)` draw per customer, line 141. -/
  cityDraws : ℕ → ℕ
  /-- `np.random.choice(PRODUCT_TYPES)` draw per product, line 196. -/
  typeDraws : ℕ → ℕ
  /-- `np.random.lognormal(2.8, 0.8)` sample per product (line 192); support is positive. -/
  priceDraws : ℕ → {q : ℚ // 0 < q}
  /-- `np.random.uniform(0.40, 0.70)` sample per product (line 199); support `[0.40, 0.70)`. -/
  costFracDraws : ℕ → {q : ℚ // 2/5 ≤ q ∧ q < 7/10}
  /-- `np.random.poisson(120)` sample per product, line 200. -/
  stockDraws : ℕ → ℕ
  /-- adjective choice per product, line 201. -/
  adjDraws : ℕ → ℕ
  /-- size choice per product, line 201. -/
  sizeDraws : ℕ → ℕ
  /-- `np.random.randint(1, N_CUSTOMERS + 1)` draw per order, line 265. -/
  custPickDraws : ℕ → ℕ
  /-- `np.random.randint(0, delta_days + 1)` draw per order, line 272. -/
  orderDateDraws : ℕ → ℕ
  /-- payment-type choice per order, line 275. -/
  paymentDraws : ℕ → ℕ
  /-- status choice per order, line 276. -/
  statusDraws : ℕ → ℕ
  /-- item-count choice per order, line 278. -/
  itemCountDraws : ℕ → ℕ
  /-- weighted product picks (without replacement) per order, per step, lines 279-284. -/
  productPickDraws : ℕ → ℕ → ℕ
  /-- quantity choice per order item id, lines 289-294. -/
  qtyDraws : ℕ → ℕ
  /-- discount choice per order item id, lines 298-300. -/
  discountDraws : ℕ → ℕ

/-- `random_date_between` (lines 124-127): start plus a uniform draw of
`randint(0, delta.days + 1)` many days. -/
def random_date_between (startD endD : ℤ) (d : ℕ) : ℤ :=
  startD + ((d % ((endD - startD).toNat + 1) : ℕ) : ℤ)

/-- One customer row (lines 135-152); `i` is 1-based. -/
def genCustomer (src : RandomSource) (endDate : ℤ) (i : ℕ) : CustomerRow :=
  { customer_id := i
    first_name := (src.nameDraws i).1
    last_name := (src.nameDraws i).2
    email := "user" ++ toString i ++ "@example.com"
    signup_date := random_date_between (startDateOf endDate) endDate (src.customerDateDraws i)
    city := SWEDISH_CITIES.getD (src.cityDraws i % SWEDISH_CITIES.length) ""
    age := ⌊max 18 (min (src.ageDraws i) 90)⌋ }

/-- The customers table: `for i in range(1, N_CUSTOMERS + 1)` (line 135). -/
def genCustomers (src : RandomSource) (endDate : ℤ) : List CustomerRow :=
  (List.range' 1 N_CUSTOMERS).map (genCustomer src endDate)

/-- `signup_map` (lines 159-164): customer_id -> signup date. -/
def signup_map (cs : List CustomerRow) : List (ℕ × ℤ) :=
  cs.map (fun c => (c.customer_id, c.signup_date))

/-- `prices[i-1] = np.round(lognormal_draw, 2)` (line 192). -/
def mkPrice (draw : ℚ) : ℚ := round2 draw

/-- `cost = round(price * np.random.uniform(0.40, 0.70), 2)` (line 199). -/
def mkCost (price u : ℚ) : ℚ := round2 (price * u)

/-- One product row (lines 195-212); `i` is 1-based. -/
def genProduct (src : RandomSource) (i : ℕ) : ProductRow :=
  let ptype := PRODUCT_TYPES.getD (src.typeDraws i % PRODUCT_TYPES.length) ""
  let price := mkPrice (src.priceDraws i).1
  { product_id := i
    product_name :=
      adjectives.getD (src.adjDraws i % adjectives.length) "" ++ " " ++ ptype
        ++ " " ++ sizes.getD (src.sizeDraws i % sizes.length) ""
    product_type := ptype
    category := ((PRODUCT_TYPE_TO_CATEGORY.lookup ptype).getD "")
    price := price
    cost := mkCost price (src.costFracDraws i).1
    available_stock := src.stockDraws i }

/-- The products table: `for i in range(1, N_PRODUCTS + 1)` (line 195). -/
def genProducts (src : RandomSource) : List ProductRow :=
  (List.range' 1 N_PRODUCTS).map (genProduct src)

/-- `price_map` (line 219): product_id -> price. -/
def price_map (ps : List ProductRow) : List (ℕ × ℚ) :=
  ps.map (fun p => (p.product_id, p.price))

/-- Order-date computation (lines 268-273): if the signup date equals or
exceeds `END_DATE` use it directly, otherwise add a uniform draw of
`randint(0, delta_days + 1)` days. -/
def computeOrderDate (signup endDate : ℤ) (d : ℕ) : ℤ :=
  if endDate ≤ signup then signup
  else signup + ((d % ((endDate - signup).toNat + 1) : ℕ) : ℤ)

/-- `item_choices = np.arange(MIN_ITEMS_PER_ORDER, MAX_ITEMS_PER_ORDER + 1)` (line 259). -/
def ITEM_COUNT_CHOICES : List ℕ :=
  List.range' MIN_ITEMS_PER_ORDER (MAX_ITEMS_PER_ORDER - MIN_ITEMS_PER_ORDER + 1)

/-- Quantity choice set `[1, 1, 1, 2, 2, 3]` (line 291). -/
def ITEM_QTY_CHOICES : List ℕ := [1, 1, 1, 2, 2, 3]

/-- Discount choice set `[0.0, 0.0, 0.05, 0.1]` (line 299). -/
def DISCOUNT_CHOICES : List ℚ := [0, 0, 1/20, 1/10]

/-- `unit_price_after = round(unit_price * (1 - discount), 2)` (line 301). -/
def unit_price_after (p d : ℚ) : ℚ := round2 (p * (1 - d))

/-- `line_total = round(quantity * unit_price_after, 2)` (line 302). -/
def line_total_of (q : ℕ) (upa : ℚ) : ℚ := round2 ((q : ℚ) * upa)

/-- `np.random.choice(pool, size=k, replace=False, p=weights)` (lines
279-284): repeatedly pick an element of the remaining pool (the draw selects
the position, abstracting the 1/rank weighting) and remove it. -/
def sampleWithoutReplacement (draws : ℕ → ℕ) : ℕ → List ℕ → List ℕ
  | 0, _ => []
  | _ + 1, [] => []
  | k + 1, p :: ps =>
    let x := (p :: ps).getD (draws 0 % (p :: ps).length) 0
    x :: sampleWithoutReplacement (fun n => draws (n + 1)) k ((p :: ps).erase x)

/-- Per-order payload: the fields of an `orders.csv` row other than the
order id (which the loop variable supplies). -/
structure OrderPayload where
  customer_id : ℕ
  order_date : ℤ
  total_amount : ℚ
  payment_type : String
  status : String
deriving DecidableEq

def mkOrderRow (id : ℕ) (p : OrderPayload) : OrderRow :=
  { order_id := id
    customer_id := p.customer_id
    order_date := p.order_date
    total_amount := p.total_amount
    payment_type := p.payment_type
    status := p.status }

/-- The inner item loop (lines 287-307).  `c` is the running
`order_item_id` counter; it is incremented before the `price_map` lookup,
matching the source, so a failing lookup consumes its id.  Returns the new
counter, the item rows written so far, and either the accumulated
`line_totals` or the `KeyError` message (line 297). -/
def genItems (src : RandomSource) (pm : List (ℕ × ℚ)) (orderId : ℕ) :
    ℕ → List ℕ → ℕ × List OrderItemRow × Except String (List ℚ)
  | c, [] => (c, [], Except.ok [])
  | c, pid :: rest =>
    let itemId := c + 1
    let quantity := ITEM_QTY_CHOICES.getD (src.qtyDraws itemId % ITEM_QTY_CHOICES.length) 1
    match pm.lookup pid with
    | none => (itemId, [], Except.error ("product_id " ++ toString pid ++ " not found in price_map"))
    | some unit_price =>
      let discount := DISCOUNT_CHOICES.getD (src.discountDraws itemId % DISCOUNT_CHOICES.length) 0
      let upa := unit_price_after unit_price discount
      let lt := line_total_of quantity upa
      let row : OrderItemRow :=
        { order_item_id := itemId
          order_id := orderId
          product_id := pid
          quantity := quantity
          unit_price := upa
          line_total := lt }
      let next := genItems src pm orderId itemId rest
      (next.1, row :: next.2.1, next.2.2.map (fun ls => lt :: ls))

/-- The body of one iteration of the order loop (lines 263-312), up to the
`try` boundary.  Returns the new item-id counter, the item rows written, and
either the order payload or the error carried by the raised exception. -/
def genOrder (endDate : ℤ) (sm : List (ℕ × ℤ)) (pm : List (ℕ × ℚ))
    (nCust nProd : ℕ) (src : RandomSource) (orderId c : ℕ) :
    ℕ × List OrderItemRow × Except String OrderPayload :=
  let customer_id := 1 + src.custPickDraws orderId % nCust
  let signup := (sm.lookup customer_id).getD (startDateOf endDate)
  let order_date := computeOrderDate signup endDate (src.orderDateDraws orderId)
  let payment_type := PAYMENT_TYPES.getD (src.paymentDraws orderId % PAYMENT_TYPES.length) ""
  let status := ORDER_STATUSES.getD (src.statusDraws orderId % ORDER_STATUSES.length) ""
  let n_items := ITEM_COUNT_CHOICES.getD (src.itemCountDraws orderId % ITEM_COUNT_CHOICES.length) 1
  let pids := sampleWithoutReplacement (src.productPickDraws orderId) n_items (List.range' 1 nProd)
  let r := genItems src pm orderId c pids
  (r.1, r.2.1,
    match r.2.2 with
    | Except.error m => Except.error m
    | Except.ok lts =>
      Except.ok
        { customer_id := customer_id
          order_date := order_date
          total_amount := round2 lts.sum
          payment_type := payment_type
          status := status })

/-- The `try/except/continue` order loop (lines 263-316): every failed order
id is skipped, one error-log entry `(order_id, message)` is recorded for it
(printed to stderr as `errorLine` in the source, line 315), and the loop
continues with the next id. -/
def runBatch (gen : ℕ → ℕ → ℕ × List OrderItemRow × Except String OrderPayload) :
    ℕ → List ℕ → List OrderRow × List OrderItemRow × List (ℕ × String)
  | _, [] => ([], [], [])
  | c, id :: rest =>
    let r := gen id c
    let next := runBatch gen r.1 rest
    match r.2.2 with
    | Except.ok p => (mkOrderRow id p :: next.1, r.2.1 ++ next.2.1, next.2.2)
    | Except.error m => (next.1, r.2.1 ++ next.2.1, (id, m) :: next.2.2)

/-- The stderr line printed for a failed order (line 315). -/
def errorLine (orderId : ℕ) (msg : String) : String :=
  "Error generating order " ++ toString orderId ++ ": " ++ msg

/-- Complete output of one generator run. -/
structure GenOutput where
  customers : List CustomerRow
  products : List ProductRow
  orders : List OrderRow
  order_items : List OrderItemRow
  errors : List (ℕ × String)

/-- The whole script as a function of the draw oracle and of
`END_DATE = datetime.today()` (line 54). -/
def generate_all (src : RandomSource) (endDate : ℤ) : GenOutput :=
  let cs := genCustomers src endDate
  let ps := genProducts src
  let r := runBatch
    (genOrder endDate (signup_map cs) (price_map ps) N_CUSTOMERS N_PRODUCTS src)
    0 (List.range' 1 N_ORDERS)
  { customers := cs, products := ps, orders := r.1, order_items := r.2.1, errors := r.2.2 }

end GenerateData

namespace ValidateDataset

/-! Embedding of `scripts/validate_dataset.py`. -/

/-- Expected column sets (lines 8-43). -/
def EXPECTED_customers : List String :=
  ["customer_id", "first_name", "last_name", "email", "signup_date", "city", "age"]

def EXPECTED_products : List String :=
  ["product_id", "product_name", "product_type", "category", "price", "cost",
   "available_stock"]

def EXPECTED_orders : List String :=
  ["order_id", "customer_id", "order_date", "total_amount", "payment_type", "status"]

def EXPECTED_order_items : List String :=
  ["order_item_id", "order_id", "product_id", "quantity", "unit_price", "line_total"]

/-- The validator's own copy of the mapping (lines 46-77), in source order. -/
def PRODUCT_TYPE_TO_CATEGORY : List (String × String) :=
  [("Shampoo", "Shampoo"),
   ("Conditioner", "Conditioner"),
   ("Hair Mask", "Hair Mask"),
   ("Leave-in Treatment", "Hair Treatment"),
   ("Scalp Serum", "Hair Treatment"),
   ("Dry Shampoo", "Shampoo"),
   ("Hair Oil", "Hair Treatment"),
   ("Hair Serum", "Hair Treatment"),
   ("Body Lotion", "Body Care"),
   ("Body Wash", "Body Care"),
   ("Body Scrub", "Body Care"),
   ("Hand Cream", "Hand Care"),
   ("Face Cleanser", "Face Care"),
   ("Face Cream", "Face Care"),
   ("Face Serum", "Face Care"),
   ("Toner", "Face Care"),
   ("BB Cream", "Face Care"),
   ("Foundation", "Makeup"),
   ("Blush", "Makeup"),
   ("Mascara", "Makeup"),
   ("Lip Balm", "Makeup"),
   ("Lipstick", "Makeup"),
   ("Nail Polish", "Nail Care"),
   ("Base Coat", "Nail Care"),
   ("Top Coat", "Nail Care"),
   ("Cuticle Oil", "Nail Care"),
   ("Nail Strengthener", "Nail Care"),
   ("Nail File", "Nail Tools"),
   ("Nail Clippers", "Nail Tools"),
   ("Nail Brush", "Nail Tools")]

/-- The four loaded tables, as typed rows.  In the embedding a parsed row
carries every column of its schema, so the schema and null checks compare
the fixed column lists below. -/
structure Dataset where
  customers : List CustomerRow
  products : List ProductRow
  orders : List OrderRow
  order_items : List OrderItemRow
deriving DecidableEq

/-- Columns of the typed `CustomerRow` (the data the embedding loads). -/
def customersColumns : List String :=
  ["customer_id", "first_name", "last_name", "email", "signup_date", "city", "age"]

def productsColumns : List String :=
  ["product_id", "product_name", "product_type", "category", "price", "cost",
   "available_stock"]

def ordersColumns : List String :=
  ["order_id", "customer_id", "order_date", "total_amount", "payment_type", "status"]

def orderItemsColumns : List String :=
  ["order_item_id", "order_id", "product_id", "quantity", "unit_price", "line_total"]

/-- `check_schema` (lines 89-97): no missing and no unexpected columns. -/
def check_schema (cols expected : List String) : Bool :=
  (expected.filter (fun c => !(cols.contains c))).isEmpty
    && (cols.filter (fun c => !(expected.contains c))).isEmpty

/-- `set(orders.customer_id) - set(customers.customer_id)` (line 114). -/
def missing_customers (ds : Dataset) : List ℕ :=
  (ds.orders.map OrderRow.customer_id).filter
    (fun i => !((ds.customers.map CustomerRow.customer_id).contains i))

/-- `set(items.order_id) - set(orders.order_id)` (line 122). -/
def missing_orders (ds : Dataset) : List ℕ :=
  (ds.order_items.map OrderItemRow.order_id).filter
    (fun i => !((ds.orders.map OrderRow.order_id).contains i))

/-- `set(items.product_id) - set(products.product_id)` (line 130). -/
def missing_products (ds : Dataset) : List ℕ :=
  (ds.order_items.map OrderItemRow.product_id).filter
    (fun i => !((ds.products.map ProductRow.product_id).contains i))

/-- `products[products.price < products.cost]` (line 139). -/
def bad_price (ds : Dataset) : List ProductRow :=
  ds.products.filter (fun p => decide (p.price < p.cost))

/-- Rows where `PRODUCT_TYPE_TO_CATEGORY.get(product_type) != category`
(lines 147-151); a type outside the mapping counts as a mismatch. -/
def category_mismatches (ds : Dataset) : List ProductRow :=
  ds.products.filter
    (fun p => decide (PRODUCT_TYPE_TO_CATEGORY.lookup p.product_type ≠ some p.category))

/-- The merge of orders with customers on `customer_id` followed by the
`order_date < signup_date` filter (lines 159-162). -/
def bad_dates (ds : Dataset) : List (OrderRow × CustomerRow) :=
  ((ds.orders.map
      (fun o => (ds.customers.filter (fun cu => cu.customer_id == o.customer_id)).map
        (fun cu => (o, cu)))).flatten).filter
    (fun oc => decide (oc.1.order_date < oc.2.signup_date))

/-- `items[abs(items.quantity * items.unit_price - items.line_total) > 0.01]`
(lines 170-171). -/
def bad_line_total (ds : Dataset) : List OrderItemRow :=
  ds.order_items.filter
    (fun r => decide ((1 : ℚ)/100 < |(r.quantity : ℚ) * r.unit_price - r.line_total|))

/-- `df[col].is_unique` (lines 180-184). -/
def col_unique (l : List ℕ) : Bool := decide l.Nodup

/-- The full sequence of named pass/fail results `main` prints (lines
107-203), in output order.  The null checks (lines 191-203) compare typed
rows, which always carry every field, so they report the constant the
source computes on complete data. -/
def businessReport (ds : Dataset) : List (String × Bool) :=
  [("customers.csv schema", check_schema customersColumns EXPECTED_customers),
   ("products.csv schema", check_schema productsColumns EXPECTED_products),
   ("orders.csv schema", check_schema ordersColumns EXPECTED_orders),
   ("order_items.csv schema", check_schema orderItemsColumns EXPECTED_order_items),
   ("orders.customer_id", (missing_customers ds).isEmpty),
   ("order_items.order_id", (missing_orders ds).isEmpty),
   ("order_items.product_id", (missing_products ds).isEmpty),
   ("price >= cost", (bad_price ds).isEmpty),
   ("category mapping", (category_mismatches ds).isEmpty),
   ("order_date >= signup_date", (bad_dates ds).isEmpty),
   ("line_total correct", (bad_line_total ds).isEmpty),
   ("customer_id unique", col_unique (ds.customers.map CustomerRow.customer_id)),
   ("product_id unique", col_unique (ds.products.map ProductRow.product_id)),
   ("order_id unique", col_unique (ds.orders.map OrderRow.order_id)),
   ("order_item_id unique", col_unique (ds.order_items.map OrderItemRow.order_item_id)),
   ("customers no nulls", true),
   ("products no nulls", true),
   ("orders no nulls", true),
   ("order_items no nulls", true)]

/-- Every check the validator performs passes. -/
def validatorAllPass (ds : Dataset) : Bool :=
  (businessReport ds).all (fun e => e.2)

/-- The directory `data/raw` as seen by the validator: which tables exist. -/
structure DataDir where
  customers : Option (List CustomerRow)
  products : Option (List ProductRow)
  orders : Option (List OrderRow)
  order_items : Option (List OrderItemRow)

/-- `load_csv` (lines 80-86): raise `FileNotFoundError` if the file is
missing, else return the frame. -/
def load_csv {α : Type} (o : Option (List α)) (name : String) : Except String (List α) :=
  match o with
  | none => Except.error ("Missing file: data/raw/" ++ name)
  | some df => Except.ok df

/-- `main` (lines 100-205): load the four tables — any `FileNotFoundError`
propagates and aborts the whole run before any check — then produce the
report.  (The schema section reloads each file, lines 108-110; after the
first loads succeed those reloads succeed with the same frames.) -/
def main (dir : DataDir) : Except String (List (String × Bool)) := do
  let customers ← load_csv dir.customers "customers.csv"
  let products ← load_csv dir.products "products.csv"
  let orders ← load_csv dir.orders "orders.csv"
  let items ← load_csv dir.order_items "order_items.csv"
  Except.ok (businessReport
    { customers := customers, products := products, orders := orders,
      order_items := items })

/-- Modelled from the spec: the per-order aggregate check the spec assigns
to the Conformance Validator — "for all orders,
|sum(line_total over its items) − total_amount| ≤ 0.01" — which has no
counterpart in `scripts/validate_dataset.py`. -/
def spec_order_total_violations (ds : Dataset) : List OrderRow :=
  ds.orders.filter
    (fun o => decide ((1 : ℚ)/100 <
      |((ds.order_items.filter (fun r => r.order_id == o.order_id)).map
          OrderItemRow.line_total).sum - o.total_amount|))

end ValidateDataset

/-- Shift a customer row's signup date by delta days, leaving every other
field unchanged. -/
def shiftSignup (delta : ℤ) (c : CustomerRow) : CustomerRow :=
  { c with signup_date := c.signup_date + delta }

/-- A concrete draw oracle: every integer draw is 0, every continuous draw
a fixed point of its support, every name a fixed name. -/
def srcZero : GenerateData.RandomSource :=
  { nameDraws := fun _ => ("Anna", "Svensson")
    customerDateDraws := fun _ => 0
    ageDraws := fun _ => 35
    cityDraws := fun _ => 0
    typeDraws := fun _ => 0
    priceDraws := fun _ => ⟨1, one_pos⟩
    costFracDraws := fun _ => ⟨1/2, by norm_num⟩
    stockDraws := fun _ => 0
    adjDraws := fun _ => 0
    sizeDraws := fun _ => 0
    custPickDraws := fun _ => 0
    orderDateDraws := fun _ => 0
    paymentDraws := fun _ => 0
    statusDraws := fun _ => 0
    itemCountDraws := fun _ => 0
    productPickDraws := fun _ _ => 0
    qtyDraws := fun _ => 0
    discountDraws := fun _ => 0 }

/-- A four-table dataset that is internally consistent for every check the
validator performs, while its single order's `total_amount` (100.00)
disagrees with the sum of its items' line totals (5.00) by 95.00. -/
def demoDataset : ValidateDataset.Dataset :=
  { customers := [⟨1, "Anna", "Svensson", "user1@example.com", 0, "Stockholm", 30⟩]
    products := [⟨1, "Pure Shampoo 100ml", "Shampoo", "Shampoo", 10, 5, 3⟩]
    orders := [⟨1, 1, 5, 100, "card", "completed"⟩]
    order_items := [⟨1, 1, 1, 1, 5, 5⟩] }

/-- `data/raw` with `customers.csv` absent and the other three tables present. -/
def dirMissingCustomers : ValidateDataset.DataDir :=
  { customers := none, products := some [], orders := some [], order_items := some [] }

/-! ## Helper lemmas -/

theorem floor_le_roundHalfEven (x : ℚ) : ⌊x⌋ ≤ roundHalfEven x := by
  unfold roundHalfEven
  dsimp only
  split
  · exact le_refl _
  · split
    · omega
    · split <;> omega

theorem roundHalfEven_le_of_le {x : ℚ} {m : ℤ} (h : x ≤ m) : roundHalfEven x ≤ m := by
  have hfl : ⌊x⌋ ≤ m := by
    have := Int.floor_le_floor h
    simpa using this
  unfold roundHalfEven
  dsimp only
  split
  · exact hfl
  · rename_i hlt
    push_neg at hlt
    have hx : (⌊x⌋ : ℚ) < x := by
      have : (0 : ℚ) < x - ⌊x⌋ := lt_of_lt_of_le (by norm_num) hlt
      linarith
    have hfl2 : ⌊x⌋ < m := by
      have : (⌊x⌋ : ℚ) < (m : ℚ) := lt_of_lt_of_le hx h
      exact_mod_cast this
    split
    · omega
    · split <;> omega

theorem roundHalfEven_nonneg {x : ℚ} (h : 0 ≤ x) : 0 ≤ roundHalfEven x := by
  have h0 : (0 : ℤ) ≤ ⌊x⌋ := Int.floor_nonneg.mpr h
  have := floor_le_roundHalfEven x
  omega

/-- If the scaled value is below an integer bound, so is the rounding. -/
theorem round2_le_div {x : ℚ} {m : ℤ} (h : x * 100 ≤ m) : round2 x ≤ (m : ℚ) / 100 := by
  unfold round2
  have hr : roundHalfEven (x * 100) ≤ m := roundHalfEven_le_of_le h
  have : ((roundHalfEven (x * 100) : ℤ) : ℚ) ≤ (m : ℚ) := by exact_mod_cast hr
  linarith

theorem round2_nonneg {x : ℚ} (h : 0 ≤ x) : 0 ≤ round2 x := by
  unfold round2
  have h1 : (0 : ℤ) ≤ roundHalfEven (x * 100) := roundHalfEven_nonneg (by linarith)
  have h2 : (0 : ℚ) ≤ (roundHalfEven (x * 100) : ℚ) := by exact_mod_cast h1
  exact div_nonneg h2 (by norm_num)

/-- Scaling an already-rounded nonnegative value by a factor at most one and
re-rounding cannot exceed the original rounded value. -/
theorem round2_scale_le {x t : ℚ} (hx : 0 ≤ x) (ht : t ≤ 1) :
    round2 (round2 x * t) ≤ round2 x := by
  have hm0 : (0 : ℤ) ≤ roundHalfEven (x * 100) := roundHalfEven_nonneg (by linarith)
  have hmq : (0 : ℚ) ≤ (roundHalfEven (x * 100) : ℚ) := by exact_mod_cast hm0
  have h : round2 x * t * 100 ≤ ((roundHalfEven (x * 100) : ℤ) : ℚ) := by
    unfold round2
    calc (roundHalfEven (x * 100) : ℚ) / 100 * t * 100
        = (roundHalfEven (x * 100) : ℚ) * t := by ring
      _ ≤ (roundHalfEven (x * 100) : ℚ) * 1 := mul_le_mul_of_nonneg_left ht hmq
      _ = (roundHalfEven (x * 100) : ℚ) := by ring
  exact round2_le_div h

/-! ## Claim theorems -/

/-- C3: the product-type → category mapping in the generator and the one in
the validator are extensionally equal: same key sequence, and every key
looks up to the same category in both copies. -/
theorem category_maps_agree :
    GenerateData.PRODUCT_TYPE_TO_CATEGORY.map Prod.fst =
        ValidateDataset.PRODUCT_TYPE_TO_CATEGORY.map Prod.fst ∧
      ∀ k : String, GenerateData.PRODUCT_TYPE_TO_CATEGORY.lookup k =
        ValidateDataset.PRODUCT_TYPE_TO_CATEGORY.lookup k :=
  ⟨rfl, fun _ => rfl⟩

/-- C4: every generated product satisfies `cost ≤ price`: the cost is the
two-decimal rounding of `price × u` with `u` drawn from `[0.40, 0.70)`, and
this stays below the (nonnegative, already two-decimal) price after both
roundings, for every draw oracle. -/
theorem product_price_ge_cost (src : GenerateData.RandomSource) (i : ℕ) :
    (GenerateData.genProduct src i).cost ≤ (GenerateData.genProduct src i).price := by
  have hd := (src.priceDraws i).2
  have hu := (src.costFracDraws i).2
  exact round2_scale_le (le_of_lt hd) (by linarith [hu.2])

/-- C10: with a two-decimal list price (produced by rounding any nonnegative
lognormal draw) and a discount drawn from the source's choice set
`[0.0, 0.0, 0.05, 0.1]`, the stored unit price
`round(price * (1 - discount), 2)` never exceeds the list price. -/
theorem discounted_unit_price_le_list_price (draw d : ℚ) (hdraw : 0 ≤ draw)
    (hd : d ∈ GenerateData.DISCOUNT_CHOICES) :
    GenerateData.unit_price_after (GenerateData.mkPrice draw) d ≤
      GenerateData.mkPrice draw := by
  have hd0 : 0 ≤ d := by
    simp [GenerateData.DISCOUNT_CHOICES] at hd
    rcases hd with h | h | h <;> subst h <;> norm_num
  exact round2_scale_le hdraw (by linarith)

/-- Witness for C10 at `draw = 10`, `d = 0.05`. -/
theorem discounted_unit_price_le_list_price_witness :
    (0 : ℚ) ≤ 10 ∧ (1/20 : ℚ) ∈ GenerateData.DISCOUNT_CHOICES ∧
      GenerateData.unit_price_after (GenerateData.mkPrice 10) (1/20) ≤
        GenerateData.mkPrice 10 :=
  ⟨by simp, by simp [GenerateData.DISCOUNT_CHOICES],
    discounted_unit_price_le_list_price 10 (1/20) (by simp)
      (by simp [GenerateData.DISCOUNT_CHOICES])⟩

/-- C5: the order date computed by the generator is at least the referenced
customer's signup date, unconditionally — and at most
`max signup END_DATE`, i.e. it lies between signup date and "now"
inclusive, with the signup date itself used when it already reaches
`END_DATE`. -/
theorem order_date_between_signup_and_now (signup endDate : ℤ) (d : ℕ) :
    signup ≤ GenerateData.computeOrderDate signup endDate d ∧
      GenerateData.computeOrderDate signup endDate d ≤ max signup endDate := by
  unfold GenerateData.computeOrderDate
  split
  · exact ⟨le_refl _, le_max_left _ _⟩
  · rename_i h
    push_neg at h
    set M := (endDate - signup).toNat + 1 with hM
    have hmodnn : (0 : ℤ) ≤ ((d % M : ℕ) : ℤ) := Int.natCast_nonneg _
    refine ⟨by linarith, ?_⟩
    have hmod : d % M < M := Nat.mod_lt d (by omega)
    have hmod2 : d % M ≤ (endDate - signup).toNat := by omega
    have hcast : (((endDate - signup).toNat : ℕ) : ℤ) = endDate - signup :=
      Int.toNat_of_nonneg (by omega)
    have hle : ((d % M : ℕ) : ℤ) ≤ endDate - signup := by
      calc ((d % M : ℕ) : ℤ) ≤ (((endDate - signup).toNat : ℕ) : ℤ) := by
            exact_mod_cast hmod2
        _ = endDate - signup := hcast
    have hfin : signup + ((d % M : ℕ) : ℤ) ≤ endDate := by linarith
    exact le_trans hfin (le_max_right _ _)

section OrderLoopLemmas

open GenerateData

theorem sampleWithoutReplacement_subset :
    ∀ (k : ℕ) (draws : ℕ → ℕ) (pool : List ℕ),
      sampleWithoutReplacement draws k pool ⊆ pool := by
  intro k
  induction k with
  | zero => intro draws pool; simp [sampleWithoutReplacement]
  | succ k ih =>
    intro draws pool
    cases pool with
    | nil => simp [sampleWithoutReplacement]
    | cons p ps =>
      simp only [sampleWithoutReplacement]
      intro a ha
      rcases List.mem_cons.mp ha with h | h
      · subst h
        have hidx : draws 0 % (p :: ps).length < (p :: ps).length :=
          Nat.mod_lt _ (by simp)
        rw [List.getD_eq_getElem _ _ hidx]
        exact List.getElem_mem hidx
      · exact List.erase_subset _ _ (ih _ _ h)

theorem sampleWithoutReplacement_nodup :
    ∀ (k : ℕ) (draws : ℕ → ℕ) (pool : List ℕ), pool.Nodup →
      (sampleWithoutReplacement draws k pool).Nodup := by
  intro k
  induction k with
  | zero => intro draws pool _; simp [sampleWithoutReplacement]
  | succ k ih =>
    intro draws pool h
    cases pool with
    | nil => simp [sampleWithoutReplacement]
    | cons p ps =>
      simp only [sampleWithoutReplacement]
      refine List.nodup_cons.mpr ⟨?_, ih _ _ (h.erase _)⟩
      intro hmem
      have hsub := sampleWithoutReplacement_subset k (fun n => draws (n + 1)) _ hmem
      exact (h.mem_erase_iff.mp hsub).1 rfl

theorem genItems_product_ids_sublist (src : RandomSource) (pm : List (ℕ × ℚ))
    (orderId : ℕ) :
    ∀ (pids : List ℕ) (c : ℕ),
      ((genItems src pm orderId c pids).2.1.map OrderItemRow.product_id).Sublist pids := by
  intro pids
  induction pids with
  | nil => intro c; simp [genItems]
  | cons pid rest ih =>
    intro c
    cases hl : pm.lookup pid with
    | none => simp [genItems, hl]
    | some up =>
      simp only [genItems, hl, List.map_cons]
      exact List.Sublist.cons₂ _ (ih _)

theorem genItems_ok_of_lookup_some (src : RandomSource) (pm : List (ℕ × ℚ))
    (orderId : ℕ) :
    ∀ (pids : List ℕ) (c : ℕ), (∀ pid ∈ pids, (pm.lookup pid).isSome = true) →
      ((genItems src pm orderId c pids).2.2).isOk = true := by
  intro pids
  induction pids with
  | nil => intro c _; rfl
  | cons pid rest ih =>
    intro c h
    have hpid := h pid (List.mem_cons_self _ _)
    cases hl : pm.lookup pid with
    | none => rw [hl] at hpid; simp at hpid
    | some up =>
      simp only [genItems, hl]
      have hrest := ih (c + 1) (fun q hq => h q (List.mem_cons_of_mem _ hq))
      cases he : (genItems src pm orderId (c + 1) rest).2.2 with
      | ok ls => rfl
      | error m => rw [he] at hrest; exact Bool.noConfusion hrest

theorem lookup_keyed_map_isSome {β : Type} (f : ℕ → β) :
    ∀ (l : List ℕ) (a : ℕ), a ∈ l →
      ((l.map (fun i => (i, f i))).lookup a).isSome = true := by
  intro l
  induction l with
  | nil => intro a ha; cases ha
  | cons b bs ih =>
    intro a ha
    by_cases hab : a = b
    · subst hab
      simp [List.lookup]
    · have hbeq : (a == b) = false := beq_eq_false_iff_ne.mpr hab
      rcases List.mem_cons.mp ha with h | h
      · exact absurd h hab
      · rw [List.map_cons, List.lookup_cons, hbeq]
        exact ih a h

theorem runBatch_errors_nil
    (gen : ℕ → ℕ → ℕ × List OrderItemRow × Except String OrderPayload)
    (h : ∀ i c, ((gen i c).2.2).isOk = true) :
    ∀ (ids : List ℕ) (c : ℕ), (runBatch gen c ids).2.2 = [] := by
  intro ids
  induction ids with
  | nil => intro c; simp [runBatch]
  | cons i rest ih =>
    intro c
    have hok := h i c
    cases he : (gen i c).2.2 with
    | ok p => simp only [runBatch, he]; exact ih _
    | error m => rw [he] at hok; exact Bool.noConfusion hok

end OrderLoopLemmas

/-- C6: the order loop processes every order id exactly once: each id ends
up either as an emitted order row carrying that id or as one error-log
entry naming that id (rendered to stderr as
`errorLine id msg = "Error generating order {id}: {msg}"`), and the loop
continues past failures — a failing order never aborts the batch.  Stated
as a multiset partition of the processed ids, for an arbitrary per-order
generation body `gen` and item-id counter. -/
theorem failed_order_skipped_reported_loop_continues
    (gen : ℕ → ℕ → ℕ × List OrderItemRow × Except String GenerateData.OrderPayload)
    (c : ℕ) (ids : List ℕ) (orderId : ℕ) :
    ((GenerateData.runBatch gen c ids).1.map OrderRow.order_id).count orderId +
        ((GenerateData.runBatch gen c ids).2.2.map Prod.fst).count orderId =
      ids.count orderId := by
  induction ids generalizing c with
  | nil => simp [GenerateData.runBatch]
  | cons i rest ih =>
    cases he : (gen i c).2.2 with
    | ok p =>
      simp only [GenerateData.runBatch, he, List.map_cons]
      have hid : (GenerateData.mkOrderRow i p).order_id = i := rfl
      rw [hid, List.count_cons, List.count_cons]
      have hih := ih ((gen i c).1)
      omega
    | error m =>
      simp only [GenerateData.runBatch, he, List.map_cons]
      rw [List.count_cons, List.count_cons]
      have hih := ih ((gen i c).1)
      omega

/-- C8: within any single generated order, the chosen product ids are
pairwise distinct — the sampling is without replacement from the nodup pool
`range(1, N_PRODUCTS + 1)` — so no product id repeats across the order's
item rows, for every oracle, configuration, and counter state. -/
theorem order_item_product_ids_nodup (endDate : ℤ) (sm : List (ℕ × ℤ))
    (pm : List (ℕ × ℚ)) (nCust nProd : ℕ) (src : GenerateData.RandomSource)
    (orderId c : ℕ) :
    (((GenerateData.genOrder endDate sm pm nCust nProd src orderId c).2.1).map
        OrderItemRow.product_id).Nodup := by
  have hpool : (List.range' 1 nProd).Nodup := List.nodup_range' 1 nProd
  have hpids := sampleWithoutReplacement_nodup
    (GenerateData.ITEM_COUNT_CHOICES.getD
      (src.itemCountDraws orderId % GenerateData.ITEM_COUNT_CHOICES.length) 1)
    (src.productPickDraws orderId) (List.range' 1 nProd) hpool
  exact List.Nodup.sublist (genItems_product_ids_sublist src pm orderId _ c) hpids

/-- C9: under the default configuration the `KeyError` branch is dead code:
the sampled product ids always lie in `1..N_PRODUCTS`, `price_map` covers
every id in that range, so no per-order exception is ever raised and the
generator's error log is empty — no order is ever skipped. -/
theorem keyerror_branch_unreachable (src : GenerateData.RandomSource) (endDate : ℤ) :
    (GenerateData.generate_all src endDate).errors = [] := by
  apply runBatch_errors_nil
  intro i c
  -- the per-order body, on the real price_map, never returns an error
  have hcover : ∀ pid ∈ List.range' 1 GenerateData.N_PRODUCTS,
      ((GenerateData.price_map (GenerateData.genProducts src)).lookup pid).isSome = true := by
    intro pid hpid
    have hmap : GenerateData.price_map (GenerateData.genProducts src) =
        (List.range' 1 GenerateData.N_PRODUCTS).map
          (fun j => (j, (GenerateData.genProduct src j).price)) := by
      unfold GenerateData.price_map GenerateData.genProducts
      rw [List.map_map]
      rfl
    rw [hmap]
    exact lookup_keyed_map_isSome (fun j => (GenerateData.genProduct src j).price) _ pid hpid
  have hsub := sampleWithoutReplacement_subset
    (GenerateData.ITEM_COUNT_CHOICES.getD
      (src.itemCountDraws i % GenerateData.ITEM_COUNT_CHOICES.length) 1)
    (src.productPickDraws i) (List.range' 1 GenerateData.N_PRODUCTS)
  have hok := genItems_ok_of_lookup_some src
    (GenerateData.price_map (GenerateData.genProducts src)) i _ c
    (fun pid hpid => hcover pid (hsub hpid))
  -- the error component of genOrder is exactly the error component of genItems
  cases he : (GenerateData.genItems src
      (GenerateData.price_map (GenerateData.genProducts src)) i c
      (GenerateData.sampleWithoutReplacement (src.productPickDraws i)
        (GenerateData.ITEM_COUNT_CHOICES.getD
          (src.itemCountDraws i % GenerateData.ITEM_COUNT_CHOICES.length) 1)
        (List.range' 1 GenerateData.N_PRODUCTS))).2.2 with
  | ok ls =>
    simp only [GenerateData.genOrder, he]
    rfl
  | error m =>
    rw [he] at hok
    exact Bool.noConfusion hok

theorem random_date_between_shift (startD endD delta : ℤ) (d : ℕ) :
    GenerateData.random_date_between (startD + delta) (endD + delta) d =
      GenerateData.random_date_between startD endD d + delta := by
  unfold GenerateData.random_date_between
  have h : endD + delta - (startD + delta) = endD - startD := by ring
  rw [h]
  ring

theorem genCustomer_shift (src : GenerateData.RandomSource) (endDate delta : ℤ)
    (i : ℕ) :
    GenerateData.genCustomer src (endDate + delta) i =
      shiftSignup delta (GenerateData.genCustomer src endDate i) := by
  have h : GenerateData.startDateOf (endDate + delta) =
      GenerateData.startDateOf endDate + delta := by
    unfold GenerateData.startDateOf; ring
  unfold GenerateData.genCustomer shiftSignup
  simp only [CustomerRow.mk.injEq, true_and, and_true]
  rw [h]
  exact random_date_between_shift _ _ _ _

/-- C1 (amended): for a fixed seed/oracle and configuration the output is a
function of the run date: shifting `END_DATE = datetime.today()` by `delta`
days shifts every generated signup date by `delta` and leaves all other
customer fields unchanged.  In particular two runs agree exactly when they
also share the same run date; runs on different days produce shifted,
hence different, customers tables. -/
theorem customers_table_shifts_with_run_date (src : GenerateData.RandomSource)
    (endDate delta : ℤ) :
    GenerateData.genCustomers src (endDate + delta) =
      (GenerateData.genCustomers src endDate).map (shiftSignup delta) := by
  unfold GenerateData.genCustomers
  rw [List.map_map]
  have h : GenerateData.genCustomer src (endDate + delta) =
      (shiftSignup delta ∘ GenerateData.genCustomer src endDate) :=
    funext fun i => genCustomer_shift src endDate delta i
  rw [h]

/-- C1 counterexample: the same oracle (seed) and configuration run on two
different days (`END_DATE` 1000 vs 1001) produces different customers
tables — already the first row's signup date differs — so the output is not
byte-identical "regardless of when" the run executes. -/
theorem same_seed_different_day_differs :
    (GenerateData.genCustomers srcZero 1000).head?.map CustomerRow.signup_date ≠
      (GenerateData.genCustomers srcZero 1001).head?.map CustomerRow.signup_date := by
  decide

/-- C2 (amended): the aggregate-consistency check the validator actually
performs is the per-item one: its "line_total correct" entry passes exactly
when every order item satisfies
`|quantity * unit_price − line_total| ≤ 0.01`.  (No per-order
`total_amount` check exists; see the counterexample.) -/
theorem validator_aggregate_check_is_per_item (ds : ValidateDataset.Dataset) :
    (ValidateDataset.businessReport ds).lookup "line_total correct" =
        some ((ValidateDataset.bad_line_total ds).isEmpty) ∧
      (ValidateDataset.bad_line_total ds).isEmpty =
        ds.order_items.all
          (fun r => decide (|(r.quantity : ℚ) * r.unit_price - r.line_total| ≤ 1/100)) := by
  constructor
  · rfl
  · unfold ValidateDataset.bad_line_total
    induction ds.order_items with
    | nil => rfl
    | cons r rest ih =>
      rw [List.filter_cons, List.all_cons]
      by_cases h : (1 : ℚ)/100 < |(r.quantity : ℚ) * r.unit_price - r.line_total|
      · have hb : decide ((1 : ℚ)/100 <
            |(r.quantity : ℚ) * r.unit_price - r.line_total|) = true := decide_eq_true h
        have hb2 : decide (|(r.quantity : ℚ) * r.unit_price - r.line_total| ≤ 1/100)
            = false := decide_eq_false (not_le.mpr h)
        rw [hb, hb2, if_pos rfl]
        simp
      · have hb : decide ((1 : ℚ)/100 <
            |(r.quantity : ℚ) * r.unit_price - r.line_total|) = false := decide_eq_false h
        have hb2 : decide (|(r.quantity : ℚ) * r.unit_price - r.line_total| ≤ 1/100)
            = true := decide_eq_true (not_lt.mp h)
        rw [hb, hb2, if_neg Bool.false_ne_true, Bool.true_and]
        exact ih

/-- C2 counterexample: `demoDataset` violates the spec's per-order
aggregate invariant (its order total is off by 95.00), yet every check the
validator performs — including "line_total correct" — passes; hence the
validator does not check order totals against the sum of line items. -/
theorem order_total_mismatch_passes_validator :
    ValidateDataset.validatorAllPass demoDataset = true ∧
      ValidateDataset.spec_order_total_violations demoDataset ≠ [] := by
  constructor
  · have h1 : ¬ ((10 : ℚ) < 5) := by norm_num
    have h2 : ¬ ((1 : ℚ)/100 < |(1 : ℚ) * 5 - 5|) := by norm_num
    simp [ValidateDataset.validatorAllPass, ValidateDataset.businessReport,
      ValidateDataset.check_schema, ValidateDataset.customersColumns,
      ValidateDataset.productsColumns, ValidateDataset.ordersColumns,
      ValidateDataset.orderItemsColumns, ValidateDataset.EXPECTED_customers,
      ValidateDataset.EXPECTED_products, ValidateDataset.EXPECTED_orders,
      ValidateDataset.EXPECTED_order_items, ValidateDataset.missing_customers,
      ValidateDataset.missing_orders, ValidateDataset.missing_products,
      ValidateDataset.bad_price, ValidateDataset.category_mismatches,
      ValidateDataset.bad_dates, ValidateDataset.bad_line_total,
      ValidateDataset.col_unique, ValidateDataset.PRODUCT_TYPE_TO_CATEGORY,
      List.lookup, demoDataset, h1, h2]
  · simp only [ValidateDataset.spec_order_total_violations, demoDataset]
    norm_num [List.filter_cons]

/-- C7 (amended): a missing input table is fatal for the whole validation
run, not just that table's checks: `main` succeeds (and produces any check
report at all) exactly when all four files are present; the failure is a
`FileNotFoundError` naming the missing path, distinct from a business-rule
result. -/
theorem missing_table_aborts_whole_run (dir : ValidateDataset.DataDir) :
    (ValidateDataset.main dir).isOk =
      (dir.customers.isSome && dir.products.isSome && dir.orders.isSome &&
        dir.order_items.isSome) := by
  obtain ⟨c, p, o, it⟩ := dir
  cases c <;> cases p <;> cases o <;> cases it <;> rfl

/-- C7 counterexample: with `customers.csv` missing and the other three
tables present, the run aborts with the file error and produces no check
report — the other tables' checks do not run, contrary to the claim. -/
theorem missing_customers_file_stops_validator :
    ValidateDataset.main dirMissingCustomers =
        Except.error "Missing file: data/raw/customers.csv" ∧
      (ValidateDataset.main dirMissingCustomers).isOk = false :=
  ⟨rfl, rfl⟩
